import Mathlib

/-!
Verification of the client-side progress pipeline of the
Infotainment-Accessibility-Evaluator frontend:
the progress-state reducer (`src/frontend/src/contexts/ProgressContext.jsx`)
and the reconnecting WebSocket hook (`src/frontend/src/hooks/useWebSocket.js`).

The reducer is embedded as a pure Lean function over an explicit state record;
the stateful hook is embedded as a set of transition functions over an explicit
state record (one transition per transport callback or operation), since all of
its work runs sequentially on the single browser event-processing thread.
-/

/-- An inbound WebSocket message, as consumed by `handleWebSocketMessage` in
`ProgressContext.jsx`: a JSON object with an `event_type` field, an
`agent_name` field (when applicable), and further payload fields that the
reducer stores but never inspects, abstracted here as an opaque `data` tag. -/
structure Msg where
  event_type : String
  agent_name : String
  data : Nat
deriving DecidableEq, Repr

/-- The actions dispatched to `progressReducer` (the `action.type` strings of
`ProgressContext.jsx`, each with the payload the dispatch sites attach). -/
inductive ProgressAction where
  | connect : ProgressAction
  | disconnect : ProgressAction
  | error : String → ProgressAction
  | progress_update : Msg → ProgressAction
  | agent_start : Msg → ProgressAction
  | agent_complete : Msg → ProgressAction
  | agent_error : Msg → ProgressAction
  | analysis_start : Msg → ProgressAction
  | analysis_complete : Msg → ProgressAction
  | clear : ProgressAction
deriving DecidableEq, Repr

/-- The progress snapshot held by the `useReducer` store in
`ProgressContext.jsx` (the fields of `initialState`). -/
structure ProgressState where
  isConnected : Bool
  error : Option String
  isAnalyzing : Bool
  activeAgents : List Msg
  completedAgents : List Msg
  errorAgents : List Msg
  updates : List Msg
  lastUpdate : Option Msg
deriving DecidableEq, Repr

/-- JavaScript `array.slice(-n)`: the last `n` elements of the list (the whole
list when it is shorter than `n`). -/
def sliceLast (n : Nat) (l : List α) : List α :=
  l.drop (l.length - n)

/-- `progressReducer` of `ProgressContext.jsx`, case for case.  JS array
spread-append `[...l, x]` is `l ++ [x]`; `Array.prototype.filter` is
`List.filter`; `slice(-n)` is `sliceLast n`. -/
def progressReducer (state : ProgressState) (action : ProgressAction) : ProgressState :=
  match action with
  | ProgressAction.connect =>
      { state with isConnected := true, error := none }
  | ProgressAction.disconnect =>
      { state with isConnected := false }
  | ProgressAction.error e =>
      { state with error := some e }
  | ProgressAction.progress_update p =>
      { state with
        lastUpdate := some p,
        updates := sliceLast 20 (state.updates ++ [p]) }
  | ProgressAction.agent_start p =>
      { state with
        activeAgents := state.activeAgents ++ [p],
        lastUpdate := some p }
  | ProgressAction.agent_complete p =>
      { state with
        activeAgents := state.activeAgents.filter (fun a => a.agent_name != p.agent_name),
        completedAgents := sliceLast 10 (state.completedAgents ++ [p]),
        lastUpdate := some p }
  | ProgressAction.agent_error p =>
      { state with
        activeAgents := state.activeAgents.filter (fun a => a.agent_name != p.agent_name),
        errorAgents := sliceLast 5 (state.errorAgents ++ [p]),
        lastUpdate := some p }
  | ProgressAction.analysis_start p =>
      { state with
        isAnalyzing := true,
        activeAgents := [],
        completedAgents := [],
        errorAgents := [],
        lastUpdate := some p }
  | ProgressAction.analysis_complete p =>
      { state with isAnalyzing := false, lastUpdate := some p }
  | ProgressAction.clear =>
      { state with
        activeAgents := [],
        completedAgents := [],
        errorAgents := [],
        updates := [],
        lastUpdate := none }

/-- `initialState` of `ProgressContext.jsx`. -/
def initialState : ProgressState :=
  { isConnected := false
    error := none
    isAnalyzing := false
    activeAgents := []
    completedAgents := []
    errorAgents := []
    updates := []
    lastUpdate := none }

/-- The dispatch performed by `handleWebSocketMessage` in `ProgressContext.jsx`:
which reducer action a given inbound message produces (the parallel app-store
side effects on `setRunningAgents` and friends are outside the snapshot and are
not modelled here). -/
def handleWebSocketMessage (data : Msg) : ProgressAction :=
  match data.event_type with
  | "analysis_start" => ProgressAction.analysis_start data
  | "analysis_complete" => ProgressAction.analysis_complete data
  | "agent_start" => ProgressAction.agent_start data
  | "agent_progress" => ProgressAction.progress_update data
  | "agent_complete" => ProgressAction.agent_complete data
  | "agent_error" => ProgressAction.agent_error data
  | "clustering_start" => ProgressAction.progress_update data
  | "clustering_complete" => ProgressAction.progress_update data
  | "patch_generation_start" => ProgressAction.progress_update data
  | "patch_generation_complete" => ProgressAction.progress_update data
  | _ => ProgressAction.progress_update data

/-- Folding one inbound message into the snapshot: dispatch then reduce. -/
def applyMessage (s : ProgressState) (m : Msg) : ProgressState :=
  progressReducer s (handleWebSocketMessage m)

/-- `clearProgress` of `ProgressContext.jsx`: dispatches the `CLEAR` action. -/
def clearProgress (s : ProgressState) : ProgressState :=
  progressReducer s ProgressAction.clear

/-- The trigger condition of the periodic cleanup interval in
`ProgressProvider` (`ProgressContext.jsx`, cleanup effect): force-clear when
`state.updates.length > 50 || state.completedAgents.length > 20`. -/
def cleanupTrigger (s : ProgressState) : Bool :=
  50 < s.updates.length || 20 < s.completedAgents.length

/-- The `readyState` of a browser `WebSocket` object
(`useWebSocket.js` compares against `WebSocket.OPEN`). -/
inductive ReadyState where
  | CONNECTING : ReadyState
  | OPEN : ReadyState
  | CLOSING : ReadyState
  | CLOSED : ReadyState
deriving DecidableEq, Repr

/-- The configuration of `useWebSocket` (`options.maxReconnectAttempts || 5`,
`options.reconnectInterval || 3000`). -/
structure WSConfig where
  maxReconnectAttempts : Nat
  reconnectInterval : Nat
deriving DecidableEq, Repr

/-- The default configuration of `useWebSocket`. -/
def wsDefaults : WSConfig :=
  { maxReconnectAttempts := 5, reconnectInterval := 3000 }

/-- The mutable state of one `useWebSocket` hook instance: the `socket` state
variable (abstracted to its `readyState`, `none` when null), the `isConnected`
and `error` state variables, whether `reconnectTimeoutRef.current` holds a
pending timer, and the `reconnectAttempts` ref.  `socketsCreated` is a ghost
counter of `new WebSocket(url)` constructor calls, used to state how many
transports an operation creates. -/
structure WSState where
  socket : Option ReadyState
  isConnected : Bool
  error : Option String
  reconnectTimeout : Bool
  reconnectAttempts : Nat
  socketsCreated : Nat
deriving DecidableEq, Repr

/-- The hook state before any connect: all state null/false/zero. -/
def wsInitial : WSState :=
  { socket := none
    isConnected := false
    error := none
    reconnectTimeout := false
    reconnectAttempts := 0
    socketsCreated := 0 }

/-- `connect` of `useWebSocket.js`: returns unchanged if the socket exists and
its `readyState` is `OPEN`, or if a reconnect timer is pending
(`reconnectTimeoutRef.current` non-null); otherwise constructs a new
`WebSocket` (a fresh transport in `CONNECTING` state). -/
def connect (s : WSState) : WSState :=
  if s.socket = some ReadyState.OPEN then s
  else if s.reconnectTimeout then s
  else
    { s with
      socket := some ReadyState.CONNECTING,
      socketsCreated := s.socketsCreated + 1 }

/-- The `ws.onopen` handler of `useWebSocket.js`: sets connected, clears the
error, resets the attempt counter to zero (the initial ping send and the
`options.onOpen` callback have no effect on this state). -/
def wsOnOpen (s : WSState) : WSState :=
  { s with
    isConnected := true
    error := none
    reconnectAttempts := 0
    socket := some ReadyState.OPEN }

/-- The `ws.onclose` handler of `useWebSocket.js`: marks disconnected, then if
the close code is not the normal 1000, the attempt counter is below the
maximum, and no reconnect timer is pending, increments the counter and
schedules one reconnect timer; otherwise, if the counter has reached the
maximum, surfaces the terminal error. -/
def wsOnClose (cfg : WSConfig) (code : Nat) (s : WSState) : WSState :=
  let s1 := { s with
    isConnected := false,
    socket := s.socket.map (fun _ => ReadyState.CLOSED) }
  if code ≠ 1000 ∧ s1.reconnectAttempts < cfg.maxReconnectAttempts ∧ s1.reconnectTimeout = false then
    { s1 with
      reconnectAttempts := s1.reconnectAttempts + 1,
      reconnectTimeout := true }
  else if cfg.maxReconnectAttempts ≤ s1.reconnectAttempts then
    { s1 with error := some "Max reconnection attempts reached" }
  else s1

/-- The firing of the reconnect timer scheduled by `wsOnClose`: the callback
nulls `reconnectTimeoutRef.current` and calls `connect`.  When no timer is
pending, nothing fires. -/
def reconnectTimerFire (s : WSState) : WSState :=
  if s.reconnectTimeout then connect { s with reconnectTimeout := false } else s

/-- `disconnect` of `useWebSocket.js`: clears any pending reconnect timer,
closes and nulls the socket (close code 1000, a normal closure), marks
disconnected, and resets the attempt counter to zero. -/
def disconnect (s : WSState) : WSState :=
  { s with
    reconnectTimeout := false
    socket := none
    isConnected := false
    reconnectAttempts := 0 }

/-- The list-length bounds the reducer maintains: at most the last 20 updates,
10 completed agents and 5 errored agents (the `slice(-n)` calls of
`progressReducer`). -/
def boundsOK (s : ProgressState) : Prop :=
  s.updates.length ≤ 20 ∧ s.completedAgents.length ≤ 10 ∧ s.errorAgents.length ≤ 5

/-- A concrete `agent_start` message for the contrast agent. -/
def mStart : Msg :=
  { event_type := "agent_start", agent_name := "contrast", data := 0 }

/-- A concrete `agent_complete` message for the contrast agent. -/
def mComplete : Msg :=
  { event_type := "agent_complete", agent_name := "contrast", data := 1 }

/-- A concrete `agent_error` message for the contrast agent. -/
def mError : Msg :=
  { event_type := "agent_error", agent_name := "contrast", data := 2 }

/-- A concrete `agent_progress` message for the contrast agent. -/
def mProgress : Msg :=
  { event_type := "agent_progress", agent_name := "contrast", data := 3 }

/-- The snapshot reached from `initialState` by folding the message sequence
agent_start, agent_complete, agent_start for the contrast agent. -/
def sBoth : ProgressState :=
  List.foldl applyMessage initialState [mStart, mComplete, mStart]

/-- A snapshot whose three bounded lists are exactly at capacity. -/
def sAtCapacity : ProgressState :=
  { initialState with
    updates := List.replicate 20 mProgress
    completedAgents := List.replicate 10 mComplete
    errorAgents := List.replicate 5 mError }

/-- A hook state whose transport is still `CONNECTING` (the window between
`new WebSocket(url)` and the `onopen` callback). -/
def sConnecting : WSState :=
  { wsInitial with socket := some ReadyState.CONNECTING, socketsCreated := 1 }

/-- A hook state whose transport is `OPEN`. -/
def sOpenWS : WSState :=
  { wsInitial with
    socket := some ReadyState.OPEN
    isConnected := true
    socketsCreated := 1 }

/-- A hook state with a pending reconnect timer after one abnormal close. -/
def sPendingWS : WSState :=
  { wsInitial with
    socket := some ReadyState.CLOSED
    reconnectTimeout := true
    reconnectAttempts := 1
    socketsCreated := 1 }

/-- A hook state after an abnormal close with no pending timer and no
attempts used. -/
def sClosedWS : WSState :=
  { wsInitial with socket := some ReadyState.CLOSED, socketsCreated := 1 }

/-- A hook state whose attempt counter has reached the default maximum. -/
def sMaxedWS : WSState :=
  { wsInitial with
    socket := some ReadyState.CLOSED
    reconnectAttempts := 5
    socketsCreated := 5 }

theorem sliceLast_length (n : Nat) (l : List α) : (sliceLast n l).length ≤ n := by
  simp only [sliceLast, List.length_drop]
  omega

theorem mem_sliceLast_append (n : Nat) (l : List α) (x : α) (hn : 0 < n) :
    x ∈ sliceLast n (l ++ [x]) := by
  have hle : (l ++ [x]).length - n ≤ l.length := by
    simp only [List.length_append, List.length_singleton]
    omega
  simp only [sliceLast, List.drop_append_of_le_length hle]
  exact List.mem_append_right _ (List.mem_singleton.mpr rfl)

theorem sliceLast_at_capacity (n : Nat) (l : List α) (x : α)
    (hl : l.length = n) (hn : 0 < n) :
    sliceLast n (l ++ [x]) = l.tail ++ [x] := by
  have h1 : (l ++ [x]).length - n = 1 := by
    simp only [List.length_append, List.length_singleton]
    omega
  have hle : 1 ≤ l.length := by omega
  rw [sliceLast, h1, List.drop_append_of_le_length hle, List.drop_one]

theorem all_ne_of_filter (l : List Msg) (name : String) :
    (l.filter (fun a => a.agent_name != name)).all (fun a => a.agent_name != name) = true := by
  rw [List.all_eq_true]
  intro a ha
  exact (List.mem_filter.mp ha).2

theorem boundsOK_step (s : ProgressState) (a : ProgressAction) (h : boundsOK s) :
    boundsOK (progressReducer s a) := by
  obtain ⟨h1, h2, h3⟩ := h
  cases a <;>
    refine ⟨?_, ?_, ?_⟩ <;>
    simp only [progressReducer] <;>
    first
      | exact sliceLast_length _ _
      | exact h1
      | exact h2
      | exact h3
      | simp

theorem boundsOK_fold (acts : List ProgressAction) (s : ProgressState) (h : boundsOK s) :
    boundsOK (List.foldl progressReducer s acts) := by
  induction acts generalizing s with
  | nil => exact h
  | cons a rest ih => exact ih (progressReducer s a) (boundsOK_step s a h)

theorem boundsOK_initial : boundsOK initialState := by
  refine ⟨?_, ?_, ?_⟩ <;> simp [initialState]

/-- C1 (counterexample): replaying the `agent_start` message for the contrast
agent twice from the initial snapshot leaves two occurrences of that agent in
the active list, not exactly one: the reducer's `AGENT_START` case appends
unconditionally. -/
theorem agent_start_twice_two_occurrences :
    ((applyMessage (applyMessage initialState mStart) mStart).activeAgents.countP
      (fun a => a.agent_name == "contrast")) ≠ 1 := by
  decide

/-- C1 (amended): folding an `agent_start` message into any snapshot appends
its payload to the active list unconditionally — the number of occurrences of
that agent name grows by exactly one each time, so the operation is not
idempotent when the agent is already present. -/
theorem agent_start_appends_unconditionally (s : ProgressState) (m : Msg)
    (h : m.event_type = "agent_start") :
    (applyMessage s m).activeAgents = s.activeAgents ++ [m] ∧
    (applyMessage s m).activeAgents.countP (fun a => a.agent_name == m.agent_name) =
      s.activeAgents.countP (fun a => a.agent_name == m.agent_name) + 1 := by
  have hd : handleWebSocketMessage m = ProgressAction.agent_start m := by
    simp [handleWebSocketMessage, h]
  constructor
  · simp [applyMessage, hd, progressReducer]
  · simp [applyMessage, hd, progressReducer, List.countP_append]

/-- Witness for C1 (amended) at the initial snapshot and the concrete
`agent_start` message. -/
theorem agent_start_appends_unconditionally_witness :
    (applyMessage initialState mStart).activeAgents = initialState.activeAgents ++ [mStart] ∧
    (applyMessage initialState mStart).activeAgents.countP
        (fun a => a.agent_name == mStart.agent_name) =
      initialState.activeAgents.countP (fun a => a.agent_name == mStart.agent_name) + 1 :=
  agent_start_appends_unconditionally initialState mStart rfl

/-- C2 (counterexample): the snapshot reached from the initial snapshot by
folding agent_start, agent_complete, agent_start for the contrast agent has
that agent simultaneously in the active list and in the completed list, so
the exclusivity invariant fails on a reachable snapshot. -/
theorem exclusivity_violated_on_reachable_snapshot :
    (sBoth.activeAgents.any (fun a => a.agent_name == "contrast")) = true ∧
    (sBoth.completedAgents.any (fun a => a.agent_name == "contrast")) = true := by
  decide

/-- C2 (amended): each `agent_complete`/`agent_error` event does remove the
agent from the active list in the same reduction step in which it appends the
payload to the completed/errored list; the global exclusivity invariant,
however, does not hold on all reachable snapshots, since `agent_start` re-adds
an agent without removing it from completed/errored. -/
theorem agent_complete_error_removes_from_active (s : ProgressState) (p : Msg) :
    ((progressReducer s (ProgressAction.agent_complete p)).activeAgents.all
        (fun a => a.agent_name != p.agent_name) = true ∧
      p ∈ (progressReducer s (ProgressAction.agent_complete p)).completedAgents) ∧
    ((progressReducer s (ProgressAction.agent_error p)).activeAgents.all
        (fun a => a.agent_name != p.agent_name) = true ∧
      p ∈ (progressReducer s (ProgressAction.agent_error p)).errorAgents) := by
  refine ⟨⟨?_, ?_⟩, ⟨?_, ?_⟩⟩
  · exact all_ne_of_filter s.activeAgents p.agent_name
  · exact mem_sliceLast_append 10 s.completedAgents p (by omega)
  · exact all_ne_of_filter s.activeAgents p.agent_name
  · exact mem_sliceLast_append 5 s.errorAgents p (by omega)

/-- C5: folding an `agent_start` message for agent X followed by an
`agent_complete` message for X leaves X in the completed list and no entry
named X in the active list; folding `agent_start` followed directly by
`agent_error` for X leaves X in the errored list and no entry named X in the
active list — from any starting snapshot. -/
theorem start_then_complete_or_error (s : ProgressState) (p q r : Msg)
    (hp : p.event_type = "agent_start") (hq : q.event_type = "agent_complete")
    (hr : r.event_type = "agent_error") (hqn : q.agent_name = p.agent_name)
    (hrn : r.agent_name = p.agent_name) :
    ((applyMessage (applyMessage s p) q).completedAgents.any
        (fun a => a.agent_name == p.agent_name) = true ∧
      (applyMessage (applyMessage s p) q).activeAgents.all
        (fun a => a.agent_name != p.agent_name) = true) ∧
    ((applyMessage (applyMessage s p) r).errorAgents.any
        (fun a => a.agent_name == p.agent_name) = true ∧
      (applyMessage (applyMessage s p) r).activeAgents.all
        (fun a => a.agent_name != p.agent_name) = true) := by
  have hdp : handleWebSocketMessage p = ProgressAction.agent_start p := by
    simp [handleWebSocketMessage, hp]
  have hdq : handleWebSocketMessage q = ProgressAction.agent_complete q := by
    simp [handleWebSocketMessage, hq]
  have hdr : handleWebSocketMessage r = ProgressAction.agent_error r := by
    simp [handleWebSocketMessage, hr]
  refine ⟨⟨?_, ?_⟩, ⟨?_, ?_⟩⟩
  · simp only [applyMessage, hdp, hdq, progressReducer]
    rw [List.any_eq_true]
    exact ⟨q, mem_sliceLast_append 10 _ q (by omega), by simp [hqn]⟩
  · simp only [applyMessage, hdp, hdq, progressReducer]
    rw [hqn]
    exact all_ne_of_filter _ _
  · simp only [applyMessage, hdp, hdr, progressReducer]
    rw [List.any_eq_true]
    exact ⟨r, mem_sliceLast_append 5 _ r (by omega), by simp [hrn]⟩
  · simp only [applyMessage, hdp, hdr, progressReducer]
    rw [hrn]
    exact all_ne_of_filter _ _

/-- Witness for C5 at the initial snapshot with the concrete contrast-agent
messages. -/
theorem start_then_complete_or_error_witness :
    ((applyMessage (applyMessage initialState mStart) mComplete).completedAgents.any
        (fun a => a.agent_name == mStart.agent_name) = true ∧
      (applyMessage (applyMessage initialState mStart) mComplete).activeAgents.all
        (fun a => a.agent_name != mStart.agent_name) = true) ∧
    ((applyMessage (applyMessage initialState mStart) mError).errorAgents.any
        (fun a => a.agent_name == mStart.agent_name) = true ∧
      (applyMessage (applyMessage initialState mStart) mError).activeAgents.all
        (fun a => a.agent_name != mStart.agent_name) = true) :=
  start_then_complete_or_error initialState mStart mComplete mError rfl rfl rfl rfl rfl

/-- C6: folding `agent_complete` (resp. `agent_error`) for an agent that is
not in the active list is total and tolerated: the filter on the active list
is the identity, and the payload is still appended to the completed
(resp. errored) list. -/
theorem complete_without_start_tolerated (s : ProgressState) (p : Msg)
    (h : s.activeAgents.all (fun a => a.agent_name != p.agent_name) = true) :
    ((progressReducer s (ProgressAction.agent_complete p)).activeAgents = s.activeAgents ∧
      p ∈ (progressReducer s (ProgressAction.agent_complete p)).completedAgents) ∧
    ((progressReducer s (ProgressAction.agent_error p)).activeAgents = s.activeAgents ∧
      p ∈ (progressReducer s (ProgressAction.agent_error p)).errorAgents) := by
  have hfe : s.activeAgents.filter (fun a => a.agent_name != p.agent_name) = s.activeAgents :=
    List.filter_eq_self.mpr (fun a ha => List.all_eq_true.mp h a ha)
  refine ⟨⟨?_, ?_⟩, ⟨?_, ?_⟩⟩
  · exact hfe
  · exact mem_sliceLast_append 10 s.completedAgents p (by omega)
  · exact hfe
  · exact mem_sliceLast_append 5 s.errorAgents p (by omega)

/-- Witness for C6: at the initial snapshot (empty active list) an
`agent_complete` with no prior `agent_start` is accepted. -/
theorem complete_without_start_tolerated_witness :
    ((progressReducer initialState (ProgressAction.agent_complete mComplete)).activeAgents =
        initialState.activeAgents ∧
      mComplete ∈ (progressReducer initialState
        (ProgressAction.agent_complete mComplete)).completedAgents) ∧
    ((progressReducer initialState (ProgressAction.agent_error mComplete)).activeAgents =
        initialState.activeAgents ∧
      mComplete ∈ (progressReducer initialState
        (ProgressAction.agent_error mComplete)).errorAgents) :=
  complete_without_start_tolerated initialState mComplete rfl

/-- C4: every snapshot reachable from the initial snapshot by folding any
action sequence keeps the recent-updates list at most 20 long, the completed
list at most 10 long and the errored list at most 5 long; and when a list is
exactly at capacity, the appending event evicts the oldest (head) entry,
keeping arrival order. -/
theorem bounded_lists_fifo (acts : List ProgressAction) (s : ProgressState) (p : Msg) :
    boundsOK (List.foldl progressReducer initialState acts) ∧
    (s.updates.length = 20 →
      (progressReducer s (ProgressAction.progress_update p)).updates =
        s.updates.tail ++ [p]) ∧
    (s.completedAgents.length = 10 →
      (progressReducer s (ProgressAction.agent_complete p)).completedAgents =
        s.completedAgents.tail ++ [p]) ∧
    (s.errorAgents.length = 5 →
      (progressReducer s (ProgressAction.agent_error p)).errorAgents =
        s.errorAgents.tail ++ [p]) := by
  refine ⟨boundsOK_fold acts initialState boundsOK_initial, ?_, ?_, ?_⟩
  · intro h
    exact sliceLast_at_capacity 20 s.updates p h (by omega)
  · intro h
    exact sliceLast_at_capacity 10 s.completedAgents p h (by omega)
  · intro h
    exact sliceLast_at_capacity 5 s.errorAgents p h (by omega)

/-- Witness for C4: the empty action sequence, and a concrete snapshot whose
three lists are exactly at capacity. -/
theorem bounded_lists_fifo_witness :
    boundsOK (List.foldl progressReducer initialState []) ∧
    (progressReducer sAtCapacity (ProgressAction.progress_update mProgress)).updates =
      sAtCapacity.updates.tail ++ [mProgress] ∧
    (progressReducer sAtCapacity (ProgressAction.agent_complete mProgress)).completedAgents =
      sAtCapacity.completedAgents.tail ++ [mProgress] ∧
    (progressReducer sAtCapacity (ProgressAction.agent_error mProgress)).errorAgents =
      sAtCapacity.errorAgents.tail ++ [mProgress] := by
  have h := bounded_lists_fifo [] sAtCapacity mProgress
  exact ⟨h.1, h.2.1 (by decide), h.2.2.1 (by decide), h.2.2.2 (by decide)⟩

/-- C9: on every snapshot reachable from the initial snapshot through the
reducer, the periodic-cleanup trigger condition (more than 50 updates or more
than 20 completed agents) is false — the force-clear branch of the cleanup
interval is unreachable on reducer-produced state. -/
theorem cleanup_trigger_unreachable (acts : List ProgressAction) :
    cleanupTrigger (List.foldl progressReducer initialState acts) = false := by
  obtain ⟨h1, h2, h3⟩ := boundsOK_fold acts initialState boundsOK_initial
  simp only [cleanupTrigger, Bool.or_eq_false_iff, decide_eq_false_iff_not, not_lt]
  omega

/-- C10: `clearProgress` (the `CLEAR` action) empties the active, completed,
errored and updates lists and nulls the last update, while the connectivity
flag, the error field and the analyzing flag keep their previous values. -/
theorem clearProgress_frame (s : ProgressState) :
    (clearProgress s).isConnected = s.isConnected ∧
    (clearProgress s).error = s.error ∧
    (clearProgress s).isAnalyzing = s.isAnalyzing ∧
    (clearProgress s).activeAgents = [] ∧
    (clearProgress s).completedAgents = [] ∧
    (clearProgress s).errorAgents = [] ∧
    (clearProgress s).updates = [] ∧
    (clearProgress s).lastUpdate = none := by
  refine ⟨rfl, rfl, rfl, rfl, rfl, rfl, rfl, rfl⟩

/-- C3 (counterexample): with a transport still in the `CONNECTING` state and
no pending reconnect timer, `connect` does not return unchanged — it
constructs a second `WebSocket`, so a second live transport is created while
the first is still opening. -/
theorem connect_while_connecting_creates_second_transport :
    sConnecting.socket = some ReadyState.CONNECTING ∧
    sConnecting.reconnectTimeout = false ∧
    connect sConnecting ≠ sConnecting ∧
    (connect sConnecting).socketsCreated = sConnecting.socketsCreated + 1 := by
  refine ⟨rfl, rfl, by decide, rfl⟩

/-- C3 (amended): `connect` is idempotent only when the existing transport's
`readyState` is `OPEN`, or when a reconnect timer is pending; in those cases
it returns the state unchanged and creates no new transport.  A transport
that is still `CONNECTING` does not stop a second `connect`. -/
theorem connect_idempotent_when_open_or_pending (s : WSState) :
    (s.socket = some ReadyState.OPEN → connect s = s) ∧
    (s.reconnectTimeout = true → connect s = s) := by
  constructor
  · intro h
    simp [connect, h]
  · intro h
    simp [connect, h]

/-- Witness for C3 (amended): an open-transport state and a
pending-reconnect state, each left unchanged by `connect`. -/
theorem connect_idempotent_witness :
    connect sOpenWS = sOpenWS ∧ connect sPendingWS = sPendingWS :=
  ⟨(connect_idempotent_when_open_or_pending sOpenWS).1 rfl,
   (connect_idempotent_when_open_or_pending sPendingWS).2 rfl⟩

/-- C7: on a close with a code other than the normal 1000 — when no reconnect
timer is pending and the attempt counter is below the maximum, exactly one
reconnect timer is scheduled and the counter is incremented; when a timer is
already pending, no further timer is scheduled, and neither counter nor ghost
transport count changes; once the counter has reached the maximum, no timer
is ever scheduled and the terminal error is surfaced instead. -/
theorem wsOnClose_reconnect_policy (cfg : WSConfig) (s : WSState) (code : Nat)
    (hcode : code ≠ 1000) :
    (s.reconnectTimeout = false → s.reconnectAttempts < cfg.maxReconnectAttempts →
      (wsOnClose cfg code s).reconnectTimeout = true ∧
      (wsOnClose cfg code s).reconnectAttempts = s.reconnectAttempts + 1) ∧
    (s.reconnectTimeout = true →
      (wsOnClose cfg code s).reconnectTimeout = true ∧
      (wsOnClose cfg code s).reconnectAttempts = s.reconnectAttempts ∧
      (wsOnClose cfg code s).socketsCreated = s.socketsCreated) ∧
    (cfg.maxReconnectAttempts ≤ s.reconnectAttempts →
      (wsOnClose cfg code s).reconnectTimeout = s.reconnectTimeout ∧
      (wsOnClose cfg code s).reconnectAttempts = s.reconnectAttempts ∧
      (wsOnClose cfg code s).error = some "Max reconnection attempts reached") := by
  refine ⟨?_, ?_, ?_⟩
  · intro hto hlt
    simp [wsOnClose, hcode, hto, hlt]
  · intro hto
    simp only [wsOnClose, hto]
    split
    · simp_all
    · split <;> simp [hto]
  · intro hmax
    have hnlt : ¬ s.reconnectAttempts < cfg.maxReconnectAttempts := by omega
    simp [wsOnClose, hnlt, hmax]

/-- Witness for C7: the three situations at concrete states with close code
1006 and the default configuration — scheduling from an idle closed state,
no rescheduling with a timer pending, and the terminal error at the maximum
attempt count. -/
theorem wsOnClose_reconnect_policy_witness :
    ((wsOnClose wsDefaults 1006 sClosedWS).reconnectTimeout = true ∧
      (wsOnClose wsDefaults 1006 sClosedWS).reconnectAttempts =
        sClosedWS.reconnectAttempts + 1) ∧
    ((wsOnClose wsDefaults 1006 sPendingWS).reconnectTimeout = true ∧
      (wsOnClose wsDefaults 1006 sPendingWS).reconnectAttempts =
        sPendingWS.reconnectAttempts ∧
      (wsOnClose wsDefaults 1006 sPendingWS).socketsCreated =
        sPendingWS.socketsCreated) ∧
    ((wsOnClose wsDefaults 1006 sMaxedWS).reconnectTimeout =
        sMaxedWS.reconnectTimeout ∧
      (wsOnClose wsDefaults 1006 sMaxedWS).reconnectAttempts =
        sMaxedWS.reconnectAttempts ∧
      (wsOnClose wsDefaults 1006 sMaxedWS).error =
        some "Max reconnection attempts reached") := by
  have h1 := wsOnClose_reconnect_policy wsDefaults sClosedWS 1006 (by decide)
  have h2 := wsOnClose_reconnect_policy wsDefaults sPendingWS 1006 (by decide)
  have h3 := wsOnClose_reconnect_policy wsDefaults sMaxedWS 1006 (by decide)
  exact ⟨h1.1 rfl (by decide), h2.2.1 rfl, h3.2.2 (by decide)⟩

/-- C8: `disconnect` clears any pending reconnect timer, reaches a
disconnected state with the attempt counter reset, is idempotent, and after
it a previously scheduled timer firing performs no reconnect — the state is
unchanged. -/
theorem disconnect_cancels_reconnect (s : WSState) :
    (disconnect s).reconnectTimeout = false ∧
    (disconnect s).isConnected = false ∧
    (disconnect s).socket = none ∧
    (disconnect s).reconnectAttempts = 0 ∧
    disconnect (disconnect s) = disconnect s ∧
    reconnectTimerFire (disconnect s) = disconnect s := by
  refine ⟨rfl, rfl, rfl, rfl, rfl, ?_⟩
  simp [reconnectTimerFire, disconnect]
